import Mathlib

/-!
AgroFarm backend: soil zones, crop rules and the weather advisory handlers.

A shallow embedding of the four advisory routes of `backend/index.js`
(`/api/weather`, `/api/soil`, `/api/recommendations`, `/api/soil-weather`)
together with the two static tables they read (`soilZones`,
`cropRecommendations`).

Modelling conventions.

* Numbers.  Every comparison in the source is between a run-time number and an
  integer literal, so only the order of numbers matters.  `JsNum` keeps `NaN`,
  the two infinities and the finite values; finite values are rationals, of
  which the finite doubles are a subset with the same order.
* Values.  `JsVal` is the fragment of the language's values the routes handle:
  query parameters, parsed JSON payloads and the response bodies.
* Built-ins and the outside world (`parseFloat`, string-to-number conversion,
  string conversion, the API key, the outbound `fetch`) are fields of
  `Runtime`; the handlers are functions of it.
* Objects.  A property read on an ordinary object falls back to the
  properties inherited from `Object.prototype` (`JsVal.getField`).
* A handler returns an `Outcome`: the status and body handed to
  `res.status(..).json(..)` (status 200 when the source calls `res.json`
  alone) and the trace of effects it performed, in order.
-/

set_option autoImplicit false

namespace AgroFarm

/-! ## Numbers -/

/-- A number of the language, up to order: `NaN`, `-Infinity`, a finite value,
`+Infinity`. -/
inductive JsNum where
  | nan
  | negInf
  | fin (q : ℚ)
  | posInf
  deriving DecidableEq

namespace JsNum

/-- The abstract operation `IsLessThan` on numbers: `none` stands for the
result `undefined`, produced when an operand is `NaN`. -/
def isLessThan : JsNum → JsNum → Option Bool
  | nan, _ => none
  | _, nan => none
  | posInf, _ => some false
  | _, posInf => some true
  | _, negInf => some false
  | negInf, _ => some true
  | fin a, fin b => some (decide (a < b))

/-- The operator `a < b`: `IsLessThan(a, b)`, with `undefined` read as false. -/
def lt (a b : JsNum) : Bool :=
  match isLessThan a b with
  | some r => r
  | none => false

/-- The operator `a > b`: `IsLessThan(b, a)`, with `undefined` read as false. -/
def gt (a b : JsNum) : Bool :=
  match isLessThan b a with
  | some r => r
  | none => false

/-- The operator `a <= b`: false when `IsLessThan(b, a)` is true or
`undefined`, true otherwise. -/
def le (a b : JsNum) : Bool :=
  match isLessThan b a with
  | some r => !r
  | none => false

/-- The operator `a >= b`: false when `IsLessThan(a, b)` is true or
`undefined`, true otherwise. -/
def ge (a b : JsNum) : Bool :=
  match isLessThan a b with
  | some r => !r
  | none => false

end JsNum

/-! ## Values -/

/-- The values the routes handle.  `native` stands for a built-in object or
function reached through a prototype (named by the property that reached it);
it never occurs in a query or in parsed JSON. -/
inductive JsVal where
  | undefined
  | null
  | bool (b : Bool)
  | num (n : JsNum)
  | str (s : String)
  | arr (items : List JsVal)
  | obj (fields : List (String × JsVal))
  | native (name : String)

namespace JsVal

/-- The conversion `ToBoolean`: `undefined`, `null`, `false`, `0`, `NaN` and
the empty string are falsy, everything else is truthy. -/
def truthy : JsVal → Bool
  | undefined => false
  | null => false
  | bool b => b
  | num n => !(decide (n = JsNum.nan) || decide (n = JsNum.fin 0))
  | str s => !(decide (s = ""))
  | arr _ => true
  | obj _ => true
  | native _ => true

/-- The operator `a || b`. -/
def or (a b : JsVal) : JsVal :=
  if a.truthy then a else b

/-- The property names every ordinary object inherits from `Object.prototype`. -/
def objectPrototypeKeys : List String :=
  ["constructor", "__defineGetter__", "__defineSetter__", "hasOwnProperty",
   "__lookupGetter__", "__lookupSetter__", "isPrototypeOf", "propertyIsEnumerable",
   "toString", "valueOf", "__proto__", "toLocaleString"]

/-- Property read `o[key]` on an ordinary object with the given own fields:
the own property when there is one, else the property inherited from
`Object.prototype`, else `undefined`. -/
def getField (fields : List (String × JsVal)) (key : String) : JsVal :=
  match fields.lookup key with
  | some v => v
  | none => if key ∈ objectPrototypeKeys then native key else undefined

/-- Property read `v.key` / `v[key]`.  `none` is the `TypeError` thrown on
`undefined` and `null`.  On the other primitives and on arrays the result is
`undefined`: the source reads only the keys `cod`, `main`, `temp`, `humidity`,
`temp_max`, `temp_min`, `rain`, `1h`, `weather`, `description`, `name`, `sys`
and `country` this way, none of which a number, boolean, string or array has. -/
def get (v : JsVal) (key : String) : Option JsVal :=
  match v with
  | undefined => none
  | null => none
  | obj fields => some (getField fields key)
  | _ => some undefined

/-- Optional read `v?.key` / `v?.[key]`: `undefined` on `undefined` and
`null`, the property otherwise. -/
def optGet (v : JsVal) (key : String) : JsVal :=
  match v with
  | undefined => undefined
  | null => undefined
  | obj fields => getField fields key
  | _ => undefined

/-- Optional index read `v?.[0]`. -/
def optFirst (v : JsVal) : JsVal :=
  match v with
  | arr (x :: _) => x
  | str s =>
    match s.toList with
    | c :: _ => str (String.singleton c)
    | [] => undefined
  | obj fields => getField fields "0"
  | _ => undefined

/-- Own-property test on a response body. -/
def hasOwn (v : JsVal) (key : String) : Bool :=
  match v with
  | obj fields => (fields.lookup key).isSome
  | _ => false

/-- Strict inequality `v !== n` against a number: false exactly when `v` is a
number equal to `n` (`NaN` equals nothing; the finite values compare by value). -/
def strictNeNum (v : JsVal) (n : ℚ) : Bool :=
  match v with
  | num (JsNum.fin q) => !(decide (q = n))
  | _ => true

end JsVal

/-! ## Run-time environment -/

/-- The result of the outbound `fetch(url)` followed by `response.json()`. -/
inductive FetchResult where
  /-- The promise returned by `fetch` rejects (transport failure). -/
  | rejected
  /-- A response with the given status; `json` is `none` when
  `response.json()` rejects (the body is not JSON). -/
  | response (status : Nat) (json : Option JsVal)

/-- The flag `response.ok`: the status is in the range 200 to 299. -/
def FetchResult.okStatus (status : Nat) : Bool :=
  decide (200 ≤ status) && decide (status < 300)

/-- Built-ins of the language and the process environment. -/
structure Runtime where
  /-- The global `parseFloat`, applied to a query value. -/
  parseFloat : JsVal → JsNum
  /-- The conversion of a string to a number (`ToNumber` on strings). -/
  stringToNumber : String → JsNum
  /-- The conversion `ToString` on values that are not strings. -/
  toStringOther : JsVal → String
  /-- The value of `process.env.OPENWEATHER_API_KEY`. -/
  apiKey : JsVal
  /-- The outbound call, by URL. -/
  fetch : String → FetchResult

namespace Runtime

/-- The conversion `ToString`. -/
def toStr (R : Runtime) : JsVal → String
  | JsVal.str s => s
  | v => R.toStringOther v

/-- The conversion `ToNumber`; arrays and objects convert through their string
form. -/
def toNumber (R : Runtime) : JsVal → JsNum
  | JsVal.undefined => JsNum.nan
  | JsVal.null => JsNum.fin 0
  | JsVal.bool true => JsNum.fin 1
  | JsVal.bool false => JsNum.fin 0
  | JsVal.num n => n
  | JsVal.str s => R.stringToNumber s
  | v => R.stringToNumber (R.toStringOther v)

/-- The comparison `v > n` of a value with a number literal. -/
def gtLit (R : Runtime) (v : JsVal) (n : ℚ) : Bool :=
  (R.toNumber v).gt (JsNum.fin n)

/-- The comparison `v < n` of a value with a number literal. -/
def ltLit (R : Runtime) (v : JsVal) (n : ℚ) : Bool :=
  (R.toNumber v).lt (JsNum.fin n)

end Runtime

/-- The effects a handler performs. -/
inductive Event where
  /-- The outbound weather call `fetch(url)`. -/
  | fetch (url : String)
  /-- The scan `soilZones.find(..)`. -/
  | zoneLookup
  /-- The read `cropRecommendations[key]`. -/
  | cropLookup (key : String)
  /-- A `console.log` line. -/
  | log (label : String)
  /-- A `console.error` line. -/
  | logError (label : String)

/-- What a handler hands to `res`: status, JSON body, and its effect trace. -/
structure Outcome where
  status : Nat
  body : JsVal
  trace : List Event

/-! ## The static tables -/

/-- An entry of `soilZones`. -/
structure SoilZone where
  name : String
  latMin : JsNum
  latMax : JsNum
  lonMin : JsNum
  lonMax : JsNum
  soilType : String
  phRange : String
  organicCarbon : String
  deriving DecidableEq

/-- The table `soilZones`, in declaration order. -/
def soilZones : List SoilZone :=
  [ { name := "North India - Alluvial",
      latMin := JsNum.fin 20, latMax := JsNum.fin 32,
      lonMin := JsNum.fin 73, lonMax := JsNum.fin 90,
      soilType := "Alluvial", phRange := "6.5 - 7.5", organicCarbon := "Medium" },
    { name := "Peninsular - Red/Loamy",
      latMin := JsNum.fin 10, latMax := JsNum.fin 20,
      lonMin := JsNum.fin 73, lonMax := JsNum.fin 85,
      soilType := "Red & Loamy", phRange := "6.0 - 7.0", organicCarbon := "Low-Medium" },
    { name := "Generic Zone",
      latMin := JsNum.fin (-90), latMax := JsNum.fin 90,
      lonMin := JsNum.fin (-180), lonMax := JsNum.fin 180,
      soilType := "Mixed", phRange := "6.0 - 7.5", organicCarbon := "Medium" } ]

/-- One crop object of `cropRecommendations`. -/
def crop (name idealSeason sowing growing harvest : String) : JsVal :=
  JsVal.obj
    [("name", JsVal.str name), ("idealSeason", JsVal.str idealSeason),
     ("sowing", JsVal.str sowing), ("growing", JsVal.str growing),
     ("harvest", JsVal.str harvest)]

/-- The list under the key `Alluvial`. -/
def alluvialCrops : JsVal :=
  JsVal.arr
    [ crop "Wheat" "Rabi" "Nov–Dec" "Dec–Feb" "Mar–Apr",
      crop "Paddy" "Kharif" "Jun–Jul" "Jul–Sep" "Oct–Nov",
      crop "Sugarcane" "Perennial" "Feb–Apr" "Year-round" "12–16 months after sowing" ]

/-- The list under the key `Red & Loamy`. -/
def redLoamyCrops : JsVal :=
  JsVal.arr
    [ crop "Groundnut" "Kharif" "Jun–Jul" "Jul–Sep" "Oct–Nov",
      crop "Millets (Bajra)" "Kharif" "Jun–Jul" "Jul–Sep" "Sep–Oct" ]

/-- The list under the key `Mixed`. -/
def mixedCrops : JsVal :=
  JsVal.arr [ crop "Pulses (Gram)" "Rabi" "Oct–Nov" "Nov–Feb" "Feb–Mar" ]

/-- The own properties of the object literal `cropRecommendations`, in
declaration order. -/
def cropRecommendations : List (String × JsVal) :=
  [ ("Alluvial", alluvialCrops), ("Red & Loamy", redLoamyCrops), ("Mixed", mixedCrops) ]

/-! ## `GET /api/soil` -/

/-- The callback passed to `soilZones.find`. -/
def zoneMatches (latitude longitude : JsNum) (z : SoilZone) : Bool :=
  latitude.ge z.latMin && latitude.le z.latMax &&
    longitude.ge z.lonMin && longitude.le z.lonMax

/-- The expression `zones.find(..) || zones[zones.length - 1]`.  A zone is an
object, hence truthy, so `||` keeps what `find` returned; `none` is
`undefined`, the value of the whole expression on an empty table. -/
def selectZone (zones : List SoilZone) (latitude longitude : JsNum) : Option SoilZone :=
  match zones.find? (zoneMatches latitude longitude) with
  | some z => some z
  | none => zones[zones.length - 1]?

/-- The body sent for a zone. -/
def soilBody (zone : SoilZone) : JsVal :=
  JsVal.obj
    [("region", JsVal.str zone.name), ("soilType", JsVal.str zone.soilType),
     ("phRange", JsVal.str zone.phRange), ("organicCarbon", JsVal.str zone.organicCarbon)]

/-- The handler of `GET /api/soil`.  The handler has no `try`; reading
`zone.name` on `undefined` would throw, which the framework answers with
status 500. -/
def apiSoil (R : Runtime) (lat lon : JsVal) : Outcome :=
  if !lat.truthy || !lon.truthy then
    { status := 400, body := JsVal.obj [("error", JsVal.str "lat and lon are required")],
      trace := [] }
  else
    let latitude := R.parseFloat lat
    let longitude := R.parseFloat lon
    match selectZone soilZones latitude longitude with
    | some zone => { status := 200, body := soilBody zone, trace := [Event.zoneLookup] }
    | none => { status := 500, body := JsVal.undefined, trace := [Event.zoneLookup] }

/-! ## `GET /api/recommendations` -/

/-- The expression `cropRecommendations[soilType] || cropRecommendations['Mixed']`
for a property key. -/
def lookupCrops (key : String) : JsVal :=
  (JsVal.getField cropRecommendations key).or (JsVal.getField cropRecommendations "Mixed")

/-- The handler of `GET /api/recommendations`. -/
def apiRecommendations (R : Runtime) (soilType : JsVal) : Outcome :=
  if !soilType.truthy then
    { status := 400, body := JsVal.obj [("error", JsVal.str "soilType is required")],
      trace := [] }
  else
    let recs := lookupCrops (R.toStr soilType)
    { status := 200, body := JsVal.obj [("soilType", soilType), ("crops", recs)],
      trace := [Event.cropLookup (R.toStr soilType)] }

/-! ## `GET /api/weather` -/

/-- The URL both weather routes call. -/
def weatherUrl (R : Runtime) (lat lon : JsVal) : String :=
  "https://api.openweathermap.org/data/2.5/weather?lat=" ++ R.toStr lat ++ "&lon=" ++
    R.toStr lon ++ "&units=metric&appid=" ++ R.toStr R.apiKey

/-- The success payload of `/api/weather`; `none` when a property read throws. -/
def weatherPayload (R : Runtime) (data : JsVal) : Option JsVal := do
  let main ← data.get "main"
  let temp ← main.get "temp"
  let humidity ← main.get "humidity"
  let tempMax ← main.get "temp_max"
  let tempMin ← main.get "temp_min"
  let precipitation := ((data.optGet "rain").optGet "1h").or (JsVal.num (JsNum.fin 0))
  let description :=
    (((data.optGet "weather").optFirst).optGet "description").or (JsVal.str "No description")
  let locationName :=
    R.toStr ((data.optGet "name").or (JsVal.str "Unknown")) ++ ", " ++
      R.toStr (((data.optGet "sys").optGet "country").or (JsVal.str ""))
  pure (JsVal.obj
    [("temperature", temp), ("humidity", humidity), ("maxTemp", tempMax),
     ("minTemp", tempMin), ("precipitation", precipitation),
     ("description", description), ("locationName", JsVal.str locationName)])

/-- The body of the `catch` of `/api/weather`. -/
def weatherServerError (before : List Event) : Outcome :=
  { status := 500, body := JsVal.obj [("message", JsVal.str "Server error while fetching weather")],
    trace := before ++ [Event.logError "Server error in /api/weather:"] }

/-- The handler of `GET /api/weather`. -/
def apiWeather (R : Runtime) (lat lon : JsVal) : Outcome :=
  if !lat.truthy || !lon.truthy then
    { status := 400, body := JsVal.obj [("message", JsVal.str "lat and lon are required")],
      trace := [] }
  else
    let url := weatherUrl R lat lon
    match R.fetch url with
    | FetchResult.rejected => weatherServerError [Event.fetch url]
    | FetchResult.response _ none => weatherServerError [Event.fetch url]
    | FetchResult.response status (some data) =>
      let logged :=
        [Event.fetch url, Event.log "Weather API status:", Event.log "Weather API raw data:"]
      if !FetchResult.okStatus status then
        { status := status,
          body := JsVal.obj [("message", JsVal.str "Weather API error"), ("details", data)],
          trace := logged }
      else
        match weatherPayload R data with
        | some payload => { status := 200, body := payload, trace := logged }
        | none => weatherServerError logged

/-! ## `GET /api/soil-weather` -/

/-- The soil fallback: `let soilType = "Loamy"` followed by the `if` / `else if`
chain on the raw query values `lat` and `lon`. -/
def soilFallback (R : Runtime) (lat lon : JsVal) : String :=
  let soilType := "Loamy"
  if R.gtLit lat 25 && R.ltLit lon 80 then "Alluvial"
  else if R.ltLit lat 20 then "Red Soil"
  else if R.gtLit lon 85 then "Laterite"
  else soilType

/-- The crop category: `let cropCategory = "Rabi"` followed by the `if` /
`else if` chain on `temperature` and `rainfall`. -/
def cropCategoryOf (R : Runtime) (temperature rainfall : JsVal) : String :=
  let cropCategory := "Rabi"
  if R.gtLit temperature 25 && R.gtLit rainfall 20 then "Kharif"
  else if R.gtLit temperature 30 then "Zaid"
  else cropCategory

/-- The value `weather.rain?.["1h"] || 0`. -/
def rainfallOf (weather : JsVal) : JsVal :=
  ((weather.optGet "rain").optGet "1h").or (JsVal.num (JsNum.fin 0))

/-- The literal `6.7` assigned to `soilPH`, kept as the decimal it denotes. -/
def soilPH : JsVal := JsVal.num (JsNum.fin (67 / 10))

/-- The advisory body of `/api/soil-weather`; `none` when a property read
throws. -/
def advisoryBody (R : Runtime) (lat lon weather : JsVal) : Option JsVal := do
  let main ← weather.get "main"
  let temperature ← main.get "temp"
  let humidity ← main.get "humidity"
  let rainfall := rainfallOf weather
  let soilType := soilFallback R lat lon
  let cropCategory := cropCategoryOf R temperature rainfall
  let location ← weather.get "name"
  pure (JsVal.obj
    [("location", location),
     ("weather", JsVal.obj
        [("temperature", temperature), ("humidity", humidity), ("rainfall", rainfall)]),
     ("soil", JsVal.obj [("type", JsVal.str soilType), ("ph", soilPH)]),
     ("recommendation", JsVal.obj
        [("cropCategory", JsVal.str cropCategory), ("confidence", JsVal.str "High")])])

/-- The body of the `catch` of `/api/soil-weather`. -/
def advisoryServerError (before : List Event) : Outcome :=
  { status := 500, body := JsVal.obj [("message", JsVal.str "Internal Server Error")],
    trace := before ++ [Event.logError "Soil-weather error:"] }

/-- The handler of `GET /api/soil-weather`. -/
def apiSoilWeather (R : Runtime) (lat lon : JsVal) : Outcome :=
  if !lat.truthy || !lon.truthy then
    { status := 400, body := JsVal.obj [("message", JsVal.str "Latitude & Longitude required")],
      trace := [] }
  else
    let url := weatherUrl R lat lon
    match R.fetch url with
    | FetchResult.rejected => advisoryServerError [Event.fetch url]
    | FetchResult.response _ none => advisoryServerError [Event.fetch url]
    | FetchResult.response _ (some weather) =>
      match weather.get "cod" with
      | none => advisoryServerError [Event.fetch url]
      | some cod =>
        if cod.strictNeNum 200 then
          { status := 500, body := JsVal.obj [("message", JsVal.str "Weather API failed")],
            trace := [Event.fetch url] }
        else
          match advisoryBody R lat lon weather with
          | some advisory => { status := 200, body := advisory, trace := [Event.fetch url] }
          | none => advisoryServerError [Event.fetch url]

/-! ## The specification's wording -/

/-- The order `a ≤ b` of the extended number line; `NaN` is below and above
nothing. -/
def JsNum.Le : JsNum → JsNum → Prop
  | JsNum.nan, _ => False
  | _, JsNum.nan => False
  | JsNum.negInf, _ => True
  | _, JsNum.posInf => True
  | JsNum.fin a, JsNum.fin b => a ≤ b
  | _, _ => False

/-- The order `a < b` of the extended number line; `NaN` is below and above
nothing. -/
def JsNum.Lt : JsNum → JsNum → Prop
  | JsNum.nan, _ => False
  | _, JsNum.nan => False
  | JsNum.posInf, _ => False
  | _, JsNum.negInf => False
  | JsNum.fin a, JsNum.fin b => a < b
  | _, _ => True

instance JsNum.decidableLe (a b : JsNum) : Decidable (a.Le b) := by
  cases a <;> cases b <;> unfold JsNum.Le <;> infer_instance

instance JsNum.decidableLt (a b : JsNum) : Decidable (a.Lt b) := by
  cases a <;> cases b <;> unfold JsNum.Lt <;> infer_instance

/-- The specification's matching rule: latitude in `[latMin, latMax]` and
longitude in `[lonMin, lonMax]`, all four bounds inclusive. -/
def SoilZone.Contains (z : SoilZone) (latitude longitude : JsNum) : Prop :=
  z.latMin.Le latitude ∧ latitude.Le z.latMax ∧
    z.lonMin.Le longitude ∧ longitude.Le z.lonMax

instance SoilZone.decidableContains (z : SoilZone) (latitude longitude : JsNum) :
    Decidable (z.Contains latitude longitude) := by
  unfold SoilZone.Contains; infer_instance

/-- The zone `z` is the first zone of `zones`, in declaration order, that
contains the coordinate. -/
def FirstContaining (zones : List SoilZone) (latitude longitude : JsNum) (z : SoilZone) :
    Prop :=
  ∃ before after, zones = before ++ z :: after ∧ z.Contains latitude longitude ∧
    ∀ z' ∈ before, ¬ z'.Contains latitude longitude

/-- The specification's reference definition of soil resolution: the first
containing zone, and the last zone of the table when no zone contains the
coordinate. -/
def ResolvesTo (zones : List SoilZone) (latitude longitude : JsNum) (z : SoilZone) : Prop :=
  FirstContaining zones latitude longitude z ∨
    ((∀ z' ∈ zones, ¬ z'.Contains latitude longitude) ∧ zones.getLast? = some z)

/-- The specification's season rule, thresholds evaluated in order. -/
def seasonRule (temperature precipitation : JsNum) : String :=
  if (JsNum.fin 25).Lt temperature ∧ (JsNum.fin 20).Lt precipitation then "Kharif"
  else if (JsNum.fin 30).Lt temperature then "Zaid"
  else "Rabi"

/-- The specification's coordinate invariant: latitude in `[-90, 90]` and
longitude in `[-180, 180]`; a `NaN` component (text that is not a number)
fails it. -/
def ValidCoordinate (latitude longitude : JsNum) : Prop :=
  (JsNum.fin (-90)).Le latitude ∧ latitude.Le (JsNum.fin 90) ∧
    (JsNum.fin (-180)).Le longitude ∧ longitude.Le (JsNum.fin 180)

instance ValidCoordinate.decidable (latitude longitude : JsNum) :
    Decidable (ValidCoordinate latitude longitude) := by
  unfold ValidCoordinate; infer_instance

/-- The specification's soil rule of the combined advisory. -/
def soilRule (latitude longitude : JsNum) : String :=
  if (JsNum.fin 25).Lt latitude ∧ longitude.Lt (JsNum.fin 80) then "Alluvial"
  else if latitude.Lt (JsNum.fin 20) then "Red Soil"
  else if (JsNum.fin 85).Lt longitude then "Laterite"
  else "Loamy"

/-- A required input is missing: absent from the query, or the empty string. -/
def Missing (v : JsVal) : Prop :=
  v = JsVal.undefined ∨ v = JsVal.str ""

/-- The fields of an advisory. -/
def advisoryFields : List String :=
  ["location", "weather", "soil", "recommendation"]

/-- The fields of a weather snapshot, as `/api/weather` names them. -/
def snapshotFields : List String :=
  ["temperature", "humidity", "maxTemp", "minTemp", "precipitation", "description",
   "locationName"]

/-! ## A runtime for concrete evaluations -/

/-- The value of a list of decimal digits read after the digits of value
`acc`; `none` when a character is not a digit. -/
def digitsValue (acc : Nat) : List Char → Option Nat
  | [] => some acc
  | c :: cs => if c.isDigit then digitsValue (10 * acc + (c.toNat - 48)) cs else none

/-- Reads a non-empty string of decimal digits as its value and any other
string as `NaN`.  On strings of decimal digits and on strings of letters other
than `Infinity` this is what both `parseFloat` and the string-to-number
conversion return; the concrete evaluations below use only such strings. -/
def readDigits (s : String) : JsNum :=
  match s.toList with
  | [] => JsNum.nan
  | c :: cs =>
    match digitsValue 0 (c :: cs) with
    | some n => JsNum.fin n
    | none => JsNum.nan

/-- A runtime whose outbound call always ends in `upstream`, for evaluating
the handlers on string-valued query parameters. -/
def demoRuntime (upstream : FetchResult) : Runtime :=
  { parseFloat := fun v =>
      match v with
      | JsVal.str s => readDigits s
      | _ => JsNum.nan
    stringToNumber := readDigits
    toStringOther := fun _ => "[object Object]"
    apiKey := JsVal.str "demo-key"
    fetch := fun _ => upstream }

/-- A successful upstream payload with the given temperature and, when there
is one, rain volume of the last hour. -/
def demoPayload (temp : ℚ) (rain : Option ℚ) : JsVal :=
  JsVal.obj
    ([("cod", JsVal.num (JsNum.fin 200)), ("name", JsVal.str "Delhi"),
      ("main", JsVal.obj
        [("temp", JsVal.num (JsNum.fin temp)), ("humidity", JsVal.num (JsNum.fin 40)),
         ("temp_max", JsVal.num (JsNum.fin temp)), ("temp_min", JsVal.num (JsNum.fin temp))])] ++
     match rain with
     | some r => [("rain", JsVal.obj [("1h", JsVal.num (JsNum.fin r))])]
     | none => [])

end AgroFarm

/-! ## Theorems -/

namespace AgroFarm

/-! ### The comparison operators against the order of numbers -/

theorem JsNum.le_iff (a b : JsNum) : a.le b = true ↔ a.Le b := by
  cases a <;> cases b <;> simp [JsNum.le, JsNum.isLessThan, JsNum.Le]

theorem JsNum.ge_iff (a b : JsNum) : a.ge b = true ↔ b.Le a := by
  cases a <;> cases b <;> simp [JsNum.ge, JsNum.isLessThan, JsNum.Le]

theorem JsNum.lt_iff (a b : JsNum) : a.lt b = true ↔ a.Lt b := by
  cases a <;> cases b <;> simp [JsNum.lt, JsNum.isLessThan, JsNum.Lt]

theorem JsNum.gt_iff (a b : JsNum) : a.gt b = true ↔ b.Lt a := by
  cases a <;> cases b <;> simp [JsNum.gt, JsNum.isLessThan, JsNum.Lt]

theorem zoneMatches_iff (latitude longitude : JsNum) (z : SoilZone) :
    zoneMatches latitude longitude z = true ↔ z.Contains latitude longitude := by
  simp [zoneMatches, SoilZone.Contains, JsNum.le_iff, JsNum.ge_iff, and_assoc]

/-! ### Soil resolution -/

theorem find_zone_eq_some_iff (zones : List SoilZone) (latitude longitude : JsNum)
    (z : SoilZone) :
    zones.find? (zoneMatches latitude longitude) = some z ↔
      FirstContaining zones latitude longitude z := by
  rw [List.find?_eq_some, zoneMatches_iff]
  constructor
  · rintro ⟨hz, before, after, hsplit, hnone⟩
    refine ⟨before, after, hsplit, hz, fun z' hz' hc => ?_⟩
    have hfalse := hnone z' hz'
    rw [(zoneMatches_iff latitude longitude z').mpr hc] at hfalse
    simp at hfalse
  · rintro ⟨before, after, hsplit, hz, hnone⟩
    refine ⟨hz, before, after, hsplit, fun z' hz' => ?_⟩
    have hc := hnone z' hz'
    rw [← zoneMatches_iff] at hc
    simp [hc]

theorem find_zone_eq_none_iff (zones : List SoilZone) (latitude longitude : JsNum) :
    zones.find? (zoneMatches latitude longitude) = none ↔
      ∀ z ∈ zones, ¬ z.Contains latitude longitude := by
  rw [List.find?_eq_none]
  constructor
  · intro h z hz hc
    exact h z hz ((zoneMatches_iff latitude longitude z).mpr hc)
  · intro h z hz hm
    exact h z hz ((zoneMatches_iff latitude longitude z).mp hm)

/-- On every table, the zone selection of the handler returns `z` exactly when
the reference definition resolves the coordinate to `z`. -/
theorem selectZone_eq_some_iff (zones : List SoilZone) (latitude longitude : JsNum)
    (z : SoilZone) :
    selectZone zones latitude longitude = some z ↔ ResolvesTo zones latitude longitude z := by
  unfold selectZone ResolvesTo
  cases hfind : zones.find? (zoneMatches latitude longitude) with
  | some found =>
    have hfirst := (find_zone_eq_some_iff zones latitude longitude found).mp hfind
    constructor
    · intro h
      have hz : found = z := by simpa using h
      exact Or.inl (hz ▸ hfirst)
    · rintro (h | ⟨hnone, _⟩)
      · have h2 := (find_zone_eq_some_iff zones latitude longitude z).mpr h
        rw [hfind] at h2
        simpa using h2
      · obtain ⟨before, after, hsplit, hc, _⟩ := hfirst
        exact absurd hc (hnone found (by simp [hsplit]))
  | none =>
    have hnone := (find_zone_eq_none_iff zones latitude longitude).mp hfind
    simp only [← List.getLast?_eq_getElem?]
    constructor
    · intro h
      exact Or.inr ⟨hnone, h⟩
    · rintro (⟨before, after, hsplit, hc, _⟩ | ⟨_, hlast⟩)
      · exact absurd hc (hnone z (by simp [hsplit]))
      · exact hlast

/-- The declared table is not empty, so the selection is never `undefined`. -/
theorem selectZone_soilZones_isSome (latitude longitude : JsNum) :
    ∃ z, selectZone soilZones latitude longitude = some z := by
  unfold selectZone
  cases zones_find : soilZones.find? (zoneMatches latitude longitude) with
  | some found => exact ⟨found, rfl⟩
  | none => exact ⟨_, rfl⟩

/-- C1: for every parsed latitude and longitude (finite, infinite or `NaN`),
the zone selection of `GET /api/soil` returns a zone, that zone is the one the
reference definition gives (the first zone in declaration order containing the
coordinate, all bounds inclusive; the last zone, `Generic Zone`, when no zone
contains it), the reference definition gives no other zone, and the handler
answers a request with non-empty `lat` and `lon` with status 200 and that
zone's fields. -/
theorem C1_soil_resolution_matches_reference (latitude longitude : JsNum) :
    ∃ z, selectZone soilZones latitude longitude = some z ∧
      ResolvesTo soilZones latitude longitude z ∧
      (∀ z', ResolvesTo soilZones latitude longitude z' → z' = z) ∧
      ((∀ z' ∈ soilZones, ¬ z'.Contains latitude longitude) → z.name = "Generic Zone") ∧
      ∀ (R : Runtime) (lat lon : JsVal), lat.truthy = true → lon.truthy = true →
        R.parseFloat lat = latitude → R.parseFloat lon = longitude →
        apiSoil R lat lon =
          { status := 200, body := soilBody z, trace := [Event.zoneLookup] } := by
  obtain ⟨z, hz⟩ := selectZone_soilZones_isSome latitude longitude
  refine ⟨z, hz, (selectZone_eq_some_iff _ _ _ _).mp hz, ?_, ?_, ?_⟩
  · intro z' hz'
    have h := (selectZone_eq_some_iff _ _ _ _).mpr hz'
    rw [hz] at h
    exact (Option.some.inj h).symm
  · intro hnone
    have hfind := (find_zone_eq_none_iff soilZones latitude longitude).mpr hnone
    unfold selectZone at hz
    rw [hfind] at hz
    have hz2 : z = _ := (Option.some.inj hz).symm
    rw [hz2]
    rfl
  · intro R lat lon hlat hlon hplat hplon
    simp [apiSoil, hlat, hlon, hplat, hplon, hz]

/-- C2, as stated, fails: the coordinate (20, 78) lies within the bounds of the
declared zone `Peninsular - Red/Loamy` (latitude 20 is its inclusive upper
bound), yet soil resolution returns `North India - Alluvial`, which is declared
first and also contains it; likewise (28, 77) lies within the bounds of
`Generic Zone` and resolves to `North India - Alluvial`. -/
theorem C2_counterexample :
    (∃ z ∈ soilZones, z.name = "Peninsular - Red/Loamy" ∧
        z.Contains (JsNum.fin 20) (JsNum.fin 78) ∧
        selectZone soilZones (JsNum.fin 20) (JsNum.fin 78) ≠ some z ∧
        (selectZone soilZones (JsNum.fin 20) (JsNum.fin 78)).map SoilZone.name =
          some "North India - Alluvial") ∧
    (∃ z ∈ soilZones, z.name = "Generic Zone" ∧
        z.Contains (JsNum.fin 28) (JsNum.fin 77) ∧
        selectZone soilZones (JsNum.fin 28) (JsNum.fin 77) ≠ some z) := by
  refine ⟨⟨_, List.mem_cons_of_mem _ (List.mem_cons_self _ _), rfl, ?_, ?_, ?_⟩,
    ⟨_, List.mem_cons_of_mem _ (List.mem_cons_of_mem _ (List.mem_cons_self _ _)), rfl, ?_, ?_⟩⟩
  · decide
  · decide
  · decide
  · decide
  · decide

/-- C2, amended: for every declared zone `z` of `soilZones` and every
coordinate that lies within the bounds of `z` and within the bounds of no zone
declared before `z`, soil resolution returns `z`, and the handler answers with
the name, soilType, phRange and organicCarbon of `z`. -/
theorem C2_declared_zone_wins_unless_earlier_zone_contains
    (before after : List SoilZone) (z : SoilZone) (latitude longitude : JsNum)
    (hdecl : soilZones = before ++ z :: after)
    (hin : z.Contains latitude longitude)
    (hfirst : ∀ z' ∈ before, ¬ z'.Contains latitude longitude) :
    selectZone soilZones latitude longitude = some z ∧
      ∀ (R : Runtime) (lat lon : JsVal), lat.truthy = true → lon.truthy = true →
        R.parseFloat lat = latitude → R.parseFloat lon = longitude →
        (apiSoil R lat lon).status = 200 ∧
        (apiSoil R lat lon).body =
          JsVal.obj
            [("region", JsVal.str z.name), ("soilType", JsVal.str z.soilType),
             ("phRange", JsVal.str z.phRange), ("organicCarbon", JsVal.str z.organicCarbon)] := by
  have hz : selectZone soilZones latitude longitude = some z :=
    (selectZone_eq_some_iff _ _ _ _).mpr (Or.inl ⟨before, after, hdecl, hin, hfirst⟩)
  refine ⟨hz, ?_⟩
  intro R lat lon hlat hlon hplat hplon
  simp [apiSoil, hlat, hlon, hplat, hplon, hz, soilBody]

/-- C2, the examples of the claim: (28, 77) resolves to `North India -
Alluvial` with soilType `Alluvial`, and (12, 78), which the first zone does not
contain, resolves to `Peninsular - Red/Loamy`. -/
theorem C2_declared_zone_wins_witness :
    (selectZone soilZones (JsNum.fin 28) (JsNum.fin 77) =
        some { name := "North India - Alluvial",
               latMin := JsNum.fin 20, latMax := JsNum.fin 32,
               lonMin := JsNum.fin 73, lonMax := JsNum.fin 90,
               soilType := "Alluvial", phRange := "6.5 - 7.5", organicCarbon := "Medium" }) ∧
    (selectZone soilZones (JsNum.fin 12) (JsNum.fin 78) =
        some { name := "Peninsular - Red/Loamy",
               latMin := JsNum.fin 10, latMax := JsNum.fin 20,
               lonMin := JsNum.fin 73, lonMax := JsNum.fin 85,
               soilType := "Red & Loamy", phRange := "6.0 - 7.0",
               organicCarbon := "Low-Medium" }) ∧
    (apiSoil (demoRuntime FetchResult.rejected) (JsVal.str "12") (JsVal.str "78")).body =
      JsVal.obj
        [("region", JsVal.str "Peninsular - Red/Loamy"), ("soilType", JsVal.str "Red & Loamy"),
         ("phRange", JsVal.str "6.0 - 7.0"), ("organicCarbon", JsVal.str "Low-Medium")] :=
  ⟨(C2_declared_zone_wins_unless_earlier_zone_contains [] _ _ (JsNum.fin 28) (JsNum.fin 77)
      rfl (by decide) (by simp)).1,
   (C2_declared_zone_wins_unless_earlier_zone_contains [_] _ _ (JsNum.fin 12) (JsNum.fin 78)
      rfl (by decide) (by decide)).1,
   ((C2_declared_zone_wins_unless_earlier_zone_contains [_] _ _ (JsNum.fin 12) (JsNum.fin 78)
      rfl (by decide) (by decide)).2 (demoRuntime FetchResult.rejected) (JsVal.str "12")
      (JsVal.str "78") rfl rfl (by decide) (by decide)).2⟩

/-! ### Crop lookup -/

/-- For a key of the table the lookup returns exactly that key's list, in its
declared order. -/
theorem lookupCrops_own :
    lookupCrops "Alluvial" = alluvialCrops ∧ lookupCrops "Red & Loamy" = redLoamyCrops ∧
      lookupCrops "Mixed" = mixedCrops := by
  refine ⟨?_, ?_, ?_⟩ <;> rfl

/-- For a key that is neither a key of the table nor a property name of
`Object.prototype` the lookup returns exactly the `Mixed` list. -/
theorem lookupCrops_unknown (key : String)
    (hown : cropRecommendations.lookup key = none)
    (hproto : key ∉ JsVal.objectPrototypeKeys) :
    lookupCrops key = mixedCrops := by
  have hfirst : JsVal.getField cropRecommendations key = JsVal.undefined := by
    simp [JsVal.getField, hown, hproto]
  unfold lookupCrops
  rw [hfirst]
  rfl

/-- C3, at the failing input: `constructor` is not a key of
`cropRecommendations`, yet `GET /api/recommendations?soilType=constructor` does
not answer with the `Mixed` list: the read `cropRecommendations[soilType]`
finds the property inherited from `Object.prototype`, which is truthy, so the
`||` fallback is not taken and `crops` is that built-in. -/
theorem C3_inherited_key_bypasses_mixed_fallback (R : Runtime) :
    cropRecommendations.lookup "constructor" = none ∧
      lookupCrops "constructor" = JsVal.native "constructor" ∧
      lookupCrops "constructor" ≠ mixedCrops ∧
      apiRecommendations R (JsVal.str "constructor") =
        { status := 200,
          body := JsVal.obj [("soilType", JsVal.str "constructor"),
                             ("crops", JsVal.native "constructor")],
          trace := [Event.cropLookup "constructor"] } := by
  have hlook : lookupCrops "constructor" = JsVal.native "constructor" := by rfl
  refine ⟨by rfl, hlook, ?_, ?_⟩
  · rw [hlook]
    intro h
    simp [mixedCrops] at h
  · simp [apiRecommendations, JsVal.truthy, Runtime.toStr, hlook]

/-- C10: for every latitude and longitude, the soilType of the zone returned
by soil resolution is a key of `cropRecommendations`; the value read under it
is truthy, so the `Mixed` fallback of the `||` is not taken; crop lookup on it
returns the list declared under that key, which is a non-empty list, and the
handler of `GET /api/recommendations` answers with that list. -/
theorem C10_resolved_soil_type_has_own_crop_list (latitude longitude : JsNum) :
    ∃ z crops first rest,
      selectZone soilZones latitude longitude = some z ∧
      cropRecommendations.lookup z.soilType = some crops ∧
      (JsVal.getField cropRecommendations z.soilType).truthy = true ∧
      lookupCrops z.soilType = crops ∧
      crops = JsVal.arr (first :: rest) ∧
      ∀ R : Runtime,
        apiRecommendations R (JsVal.str z.soilType) =
          { status := 200,
            body := JsVal.obj [("soilType", JsVal.str z.soilType), ("crops", crops)],
            trace := [Event.cropLookup z.soilType] } := by
  obtain ⟨z, hz⟩ := selectZone_soilZones_isSome latitude longitude
  have hmem : z ∈ soilZones := by
    rcases (selectZone_eq_some_iff _ _ _ _).mp hz with ⟨before, after, hsplit, _, _⟩ | ⟨_, hlast⟩
    · simp [hsplit]
    · exact List.mem_of_getLast?_eq_some hlast
  simp only [soilZones, List.mem_cons, List.mem_singleton, List.not_mem_nil, or_false] at hmem
  rcases hmem with h | h | h
  · subst h
    exact ⟨_, alluvialCrops, _, _, hz, rfl, rfl, rfl, rfl, fun R => by
      simp [apiRecommendations, JsVal.truthy, Runtime.toStr, lookupCrops_own.1]⟩
  · subst h
    exact ⟨_, redLoamyCrops, _, _, hz, rfl, rfl, rfl, rfl, fun R => by
      simp [apiRecommendations, JsVal.truthy, Runtime.toStr, lookupCrops_own.2.1]⟩
  · subst h
    exact ⟨_, mixedCrops, _, _, hz, rfl, rfl, rfl, rfl, fun R => by
      simp [apiRecommendations, JsVal.truthy, Runtime.toStr, lookupCrops_own.2.2]⟩

/-! ### The combined advisory -/

theorem strictNeNum_eq_false_iff (v : JsVal) (n : ℚ) :
    v.strictNeNum n = false ↔ v = JsVal.num (JsNum.fin n) := by
  unfold JsVal.strictNeNum
  split
  · simp
  · rename_i hne
    constructor
    · intro h
      simp at h
    · intro h
      exact absurd h (hne n)

/-- The code's crop category is the specification's season rule on the
numeric values of temperature and rainfall. -/
theorem cropCategoryOf_eq_seasonRule (R : Runtime) (temperature rainfall : JsVal) :
    cropCategoryOf R temperature rainfall =
      seasonRule (R.toNumber temperature) (R.toNumber rainfall) := by
  simp only [cropCategoryOf, seasonRule, Runtime.gtLit, Bool.and_eq_true, JsNum.gt_iff]

/-- The code's soil fallback is the specification's soil rule on the numeric
values of the query parameters. -/
theorem soilFallback_eq_soilRule (R : Runtime) (lat lon : JsVal) :
    soilFallback R lat lon = soilRule (R.toNumber lat) (R.toNumber lon) := by
  simp only [soilFallback, soilRule, Runtime.gtLit, Runtime.ltLit, Bool.and_eq_true,
    JsNum.gt_iff, JsNum.lt_iff]

/-- The shape of the advisory body when no property read throws. -/
theorem advisoryBody_eq_some (R : Runtime) (lat lon weather advisory : JsVal)
    (h : advisoryBody R lat lon weather = some advisory) :
    ∃ main temperature humidity location,
      weather.get "main" = some main ∧ main.get "temp" = some temperature ∧
      main.get "humidity" = some humidity ∧ weather.get "name" = some location ∧
      advisory = JsVal.obj
        [("location", location),
         ("weather", JsVal.obj
            [("temperature", temperature), ("humidity", humidity),
             ("rainfall", rainfallOf weather)]),
         ("soil", JsVal.obj [("type", JsVal.str (soilFallback R lat lon)), ("ph", soilPH)]),
         ("recommendation", JsVal.obj
            [("cropCategory", JsVal.str (cropCategoryOf R temperature (rainfallOf weather))),
             ("confidence", JsVal.str "High")])] := by
  simp only [advisoryBody, bind, Option.bind_eq_some, pure, Option.some.injEq] at h
  obtain ⟨main, hmain, temperature, htemp, humidity, hhum, location, hname, hbody⟩ := h
  exact ⟨main, temperature, humidity, location, hmain, htemp, hhum, hname, hbody.symm⟩

/-- Every answer of `/api/soil-weather` to a request with non-empty `lat` and
`lon`: either status 500 with a body holding only `message`, or the advisory,
the latter exactly when the payload parsed, its `cod` is the number 200 and no
property read threw. -/
theorem apiSoilWeather_cases (R : Runtime) (lat lon : JsVal)
    (hlat : lat.truthy = true) (hlon : lon.truthy = true) :
    ((apiSoilWeather R lat lon).status = 500 ∧
        ∃ msg, (apiSoilWeather R lat lon).body = JsVal.obj [("message", JsVal.str msg)]) ∨
    ∃ st weather advisory,
      R.fetch (weatherUrl R lat lon) = FetchResult.response st (some weather) ∧
      weather.get "cod" = some (JsVal.num (JsNum.fin 200)) ∧
      advisoryBody R lat lon weather = some advisory ∧
      apiSoilWeather R lat lon =
        { status := 200, body := advisory, trace := [Event.fetch (weatherUrl R lat lon)] } := by
  unfold apiSoilWeather
  simp only [hlat, hlon, Bool.not_true, Bool.or_self, Bool.false_eq_true, if_false]
  cases hfetch : R.fetch (weatherUrl R lat lon) with
  | rejected => exact Or.inl ⟨rfl, _, rfl⟩
  | response st json =>
    cases json with
    | none => exact Or.inl ⟨rfl, _, rfl⟩
    | some weather =>
      dsimp only
      cases hcod : weather.get "cod" with
      | none => exact Or.inl ⟨rfl, _, rfl⟩
      | some cod =>
        dsimp only
        cases hne : cod.strictNeNum 200 with
        | true => exact Or.inl ⟨rfl, _, rfl⟩
        | false =>
          have hc := (strictNeNum_eq_false_iff cod 200).mp hne
          simp only [Bool.false_eq_true, if_false]
          cases hbody : advisoryBody R lat lon weather with
          | none => exact Or.inl ⟨rfl, _, rfl⟩
          | some advisory => exact Or.inr ⟨st, weather, advisory, rfl, hc ▸ hcod, hbody, rfl⟩

/-- A request answered with status 200 by `/api/soil-weather` had non-empty
`lat` and `lon`. -/
theorem apiSoilWeather_ok_truthy (R : Runtime) (lat lon : JsVal)
    (hok : (apiSoilWeather R lat lon).status = 200) :
    lat.truthy = true ∧ lon.truthy = true := by
  cases hlat : lat.truthy <;> cases hlon : lon.truthy <;>
    simp [apiSoilWeather, hlat, hlon] at hok ⊢

/-- Whenever `/api/soil-weather` answers with status 200, the body is the
advisory built from the parsed upstream payload, whose `cod` is the number 200. -/
theorem apiSoilWeather_ok (R : Runtime) (lat lon : JsVal)
    (hok : (apiSoilWeather R lat lon).status = 200) :
    ∃ st weather advisory,
      R.fetch (weatherUrl R lat lon) = FetchResult.response st (some weather) ∧
      weather.get "cod" = some (JsVal.num (JsNum.fin 200)) ∧
      advisoryBody R lat lon weather = some advisory ∧
      apiSoilWeather R lat lon =
        { status := 200, body := advisory, trace := [Event.fetch (weatherUrl R lat lon)] } := by
  obtain ⟨hlat, hlon⟩ := apiSoilWeather_ok_truthy R lat lon hok
  rcases apiSoilWeather_cases R lat lon hlat hlon with ⟨h500, _⟩ | h
  · rw [h500] at hok
    exact absurd hok (by decide)
  · exact h

/-- C4: whenever `GET /api/soil-weather` returns an advisory, its
`recommendation.cropCategory` is `Kharif` if temperature > 25 and
precipitation > 20, otherwise `Zaid` if temperature > 30, otherwise `Rabi`,
where temperature is the payload's `main.temp` and precipitation is the
payload's `rain["1h"]`, taken as 0 when the payload has none; so it is one of
the three season categories. -/
theorem C4_crop_category_follows_season_rule (R : Runtime) (lat lon : JsVal)
    (hok : (apiSoilWeather R lat lon).status = 200) :
    ∃ st weather main temperature,
      R.fetch (weatherUrl R lat lon) = FetchResult.response st (some weather) ∧
      weather.get "main" = some main ∧ main.get "temp" = some temperature ∧
      (((apiSoilWeather R lat lon).body.optGet "recommendation").optGet "cropCategory" =
        JsVal.str (seasonRule (R.toNumber temperature) (R.toNumber (rainfallOf weather)))) ∧
      seasonRule (R.toNumber temperature) (R.toNumber (rainfallOf weather)) ∈
        ["Kharif", "Zaid", "Rabi"] ∧
      (∀ r : JsNum, (weather.optGet "rain").optGet "1h" = JsVal.num r →
        (JsVal.num r).truthy = true → R.toNumber (rainfallOf weather) = r) ∧
      ((weather.optGet "rain").optGet "1h" = JsVal.undefined →
        R.toNumber (rainfallOf weather) = JsNum.fin 0) := by
  obtain ⟨st, weather, advisory, hfetch, _, hbody, hout⟩ := apiSoilWeather_ok R lat lon hok
  obtain ⟨main, temperature, humidity, location, hmain, htemp, _, _, hadv⟩ :=
    advisoryBody_eq_some R lat lon weather advisory hbody
  refine ⟨st, weather, main, temperature, hfetch, hmain, htemp, ?_, ?_, ?_, ?_⟩
  · rw [hout, hadv, cropCategoryOf_eq_seasonRule]
    rfl
  · unfold seasonRule
    split_ifs <;> simp
  · intro r hr htruthy
    simp [rainfallOf, hr, JsVal.or, htruthy, Runtime.toNumber]
  · intro hnone
    simp [rainfallOf, hnone, JsVal.or, JsVal.truthy, Runtime.toNumber]

/-- C4 at concrete payloads: the advisory for temperature 27 and rain 25 has
category `Kharif`, for temperature 32 and no rain entry `Zaid`, and for
temperature 18 and rain 5 `Rabi`. -/
theorem C4_crop_category_witness :
    (apiSoilWeather (demoRuntime (FetchResult.response 200 (some (demoPayload 27 (some 25)))))
        (JsVal.str "28") (JsVal.str "77")).status = 200 ∧
    (∃ st weather main temperature,
      (demoRuntime (FetchResult.response 200 (some (demoPayload 27 (some 25))))).fetch
          (weatherUrl (demoRuntime (FetchResult.response 200 (some (demoPayload 27 (some 25)))))
            (JsVal.str "28") (JsVal.str "77")) =
        FetchResult.response st (some weather) ∧
      weather.get "main" = some main ∧ main.get "temp" = some temperature ∧
      (((apiSoilWeather
            (demoRuntime (FetchResult.response 200 (some (demoPayload 27 (some 25)))))
            (JsVal.str "28") (JsVal.str "77")).body.optGet "recommendation").optGet
          "cropCategory" =
        JsVal.str (seasonRule
          ((demoRuntime (FetchResult.response 200 (some (demoPayload 27 (some 25))))).toNumber
            temperature)
          ((demoRuntime (FetchResult.response 200 (some (demoPayload 27 (some 25))))).toNumber
            (rainfallOf weather))))) ∧
    ((apiSoilWeather (demoRuntime (FetchResult.response 200 (some (demoPayload 27 (some 25)))))
        (JsVal.str "28") (JsVal.str "77")).body.optGet "recommendation").optGet "cropCategory" =
      JsVal.str "Kharif" ∧
    ((apiSoilWeather (demoRuntime (FetchResult.response 200 (some (demoPayload 32 none))))
        (JsVal.str "28") (JsVal.str "77")).body.optGet "recommendation").optGet "cropCategory" =
      JsVal.str "Zaid" ∧
    ((apiSoilWeather (demoRuntime (FetchResult.response 200 (some (demoPayload 18 (some 5)))))
        (JsVal.str "28") (JsVal.str "77")).body.optGet "recommendation").optGet "cropCategory" =
      JsVal.str "Rabi" := by
  refine ⟨by rfl, ?_, by rfl, by rfl, by rfl⟩
  obtain ⟨st, weather, main, temperature, h1, h2, h3, h4, _⟩ :=
    C4_crop_category_follows_season_rule
      (demoRuntime (FetchResult.response 200 (some (demoPayload 27 (some 25)))))
      (JsVal.str "28") (JsVal.str "77") (by rfl)
  exact ⟨st, weather, main, temperature, h1, h2, h3, h4⟩

/-- C5: whenever `GET /api/soil-weather` returns an advisory, its `soil.type`
is `Alluvial` if latitude > 25 and longitude < 80, otherwise `Red Soil` if
latitude < 20, otherwise `Laterite` if longitude > 85, otherwise `Loamy`
(latitude and longitude being the numeric values of the query parameters), its
`soil.ph` is 6.7 and its `recommendation.confidence` is `High`. -/
theorem C5_soil_fallback_follows_soil_rule (R : Runtime) (lat lon : JsVal)
    (hok : (apiSoilWeather R lat lon).status = 200) :
    (((apiSoilWeather R lat lon).body.optGet "soil").optGet "type" =
        JsVal.str (soilRule (R.toNumber lat) (R.toNumber lon))) ∧
    (((apiSoilWeather R lat lon).body.optGet "soil").optGet "ph" =
        JsVal.num (JsNum.fin (67 / 10))) ∧
    (((apiSoilWeather R lat lon).body.optGet "recommendation").optGet "confidence" =
        JsVal.str "High") := by
  obtain ⟨st, weather, advisory, _, _, hbody, hout⟩ := apiSoilWeather_ok R lat lon hok
  obtain ⟨main, temperature, humidity, location, _, _, _, _, hadv⟩ :=
    advisoryBody_eq_some R lat lon weather advisory hbody
  rw [hout, hadv, soilFallback_eq_soilRule]
  exact ⟨rfl, rfl, rfl⟩

/-- C5 at concrete requests: (28, 77) gives `Alluvial`, (12, 78) gives
`Red Soil`, (22, 88) gives `Laterite`, (22, 82) gives `Loamy`, each with pH 6.7
and confidence `High`. -/
theorem C5_soil_fallback_witness :
    (apiSoilWeather (demoRuntime (FetchResult.response 200 (some (demoPayload 27 (some 25)))))
        (JsVal.str "28") (JsVal.str "77")).status = 200 ∧
    (((apiSoilWeather (demoRuntime (FetchResult.response 200 (some (demoPayload 27 (some 25)))))
        (JsVal.str "28") (JsVal.str "77")).body.optGet "soil").optGet "type" =
      JsVal.str "Alluvial" ∧
     ((apiSoilWeather (demoRuntime (FetchResult.response 200 (some (demoPayload 27 (some 25)))))
        (JsVal.str "28") (JsVal.str "77")).body.optGet "soil").optGet "ph" =
      JsVal.num (JsNum.fin (67 / 10)) ∧
     ((apiSoilWeather (demoRuntime (FetchResult.response 200 (some (demoPayload 27 (some 25)))))
        (JsVal.str "28") (JsVal.str "77")).body.optGet "recommendation").optGet "confidence" =
      JsVal.str "High") ∧
    ((apiSoilWeather (demoRuntime (FetchResult.response 200 (some (demoPayload 27 (some 25)))))
        (JsVal.str "12") (JsVal.str "78")).body.optGet "soil").optGet "type" =
      JsVal.str "Red Soil" ∧
    ((apiSoilWeather (demoRuntime (FetchResult.response 200 (some (demoPayload 27 (some 25)))))
        (JsVal.str "22") (JsVal.str "88")).body.optGet "soil").optGet "type" =
      JsVal.str "Laterite" ∧
    ((apiSoilWeather (demoRuntime (FetchResult.response 200 (some (demoPayload 27 (some 25)))))
        (JsVal.str "22") (JsVal.str "82")).body.optGet "soil").optGet "type" =
      JsVal.str "Loamy" := by
  have h := C5_soil_fallback_follows_soil_rule
    (demoRuntime (FetchResult.response 200 (some (demoPayload 27 (some 25)))))
    (JsVal.str "28") (JsVal.str "77") (by rfl)
  refine ⟨by rfl, ⟨?_, h.2.1, h.2.2⟩, by rfl, by rfl, by rfl⟩
  rw [h.1]
  have hrule : soilRule (JsNum.fin 28) (JsNum.fin 77) = "Alluvial" := by decide
  have hlat : (demoRuntime (FetchResult.response 200 (some (demoPayload 27 (some 25))))).toNumber
      (JsVal.str "28") = JsNum.fin 28 := by decide
  have hlon : (demoRuntime (FetchResult.response 200 (some (demoPayload 27 (some 25))))).toNumber
      (JsVal.str "77") = JsNum.fin 77 := by decide
  rw [hlat, hlon, hrule]

/-- A body holding only `message` has none of the advisory fields. -/
theorem message_body_has_no_advisory_field (msg : String) :
    ∀ k ∈ advisoryFields, (JsVal.obj [("message", JsVal.str msg)]).hasOwn k = false := by
  intro k hk
  simp only [advisoryFields, List.mem_cons, List.mem_singleton, List.not_mem_nil, or_false] at hk
  rcases hk with h | h | h | h <;> subst h <;> rfl

/-- C9: for a request with non-empty `lat` and `lon`, `GET /api/soil-weather`
answers with status 500 and a body with none of the advisory fields when the
fetch rejects, when the payload does not parse, and when the payload's `cod` is
not the number 200; every answer other than an advisory is such a 500; and an
advisory (status 200) is returned only when the payload's `cod` is the number
200. -/
theorem C9_no_partial_advisory (R : Runtime) (lat lon : JsVal)
    (hlat : lat.truthy = true) (hlon : lon.truthy = true) :
    (R.fetch (weatherUrl R lat lon) = FetchResult.rejected →
      (apiSoilWeather R lat lon).status = 500 ∧
      ∀ k ∈ advisoryFields, (apiSoilWeather R lat lon).body.hasOwn k = false) ∧
    (∀ st, R.fetch (weatherUrl R lat lon) = FetchResult.response st none →
      (apiSoilWeather R lat lon).status = 500 ∧
      ∀ k ∈ advisoryFields, (apiSoilWeather R lat lon).body.hasOwn k = false) ∧
    (∀ st weather, R.fetch (weatherUrl R lat lon) = FetchResult.response st (some weather) →
      weather.get "cod" ≠ some (JsVal.num (JsNum.fin 200)) →
      (apiSoilWeather R lat lon).status = 500 ∧
      ∀ k ∈ advisoryFields, (apiSoilWeather R lat lon).body.hasOwn k = false) ∧
    ((apiSoilWeather R lat lon).status ≠ 200 →
      (apiSoilWeather R lat lon).status = 500 ∧
      ∀ k ∈ advisoryFields, (apiSoilWeather R lat lon).body.hasOwn k = false) ∧
    ((apiSoilWeather R lat lon).status = 200 →
      ∃ st weather,
        R.fetch (weatherUrl R lat lon) = FetchResult.response st (some weather) ∧
        weather.get "cod" = some (JsVal.num (JsNum.fin 200))) := by
  have hnot200 : (apiSoilWeather R lat lon).status ≠ 200 →
      (apiSoilWeather R lat lon).status = 500 ∧
      ∀ k ∈ advisoryFields, (apiSoilWeather R lat lon).body.hasOwn k = false := by
    intro hne
    rcases apiSoilWeather_cases R lat lon hlat hlon with ⟨h500, msg, hmsg⟩ | ⟨_, _, _, _, _, _, hout⟩
    · exact ⟨h500, by rw [hmsg]; exact message_body_has_no_advisory_field msg⟩
    · rw [hout] at hne
      exact absurd rfl hne
  have h200 : (apiSoilWeather R lat lon).status = 200 →
      ∃ st weather,
        R.fetch (weatherUrl R lat lon) = FetchResult.response st (some weather) ∧
        weather.get "cod" = some (JsVal.num (JsNum.fin 200)) := by
    intro hok
    obtain ⟨st, weather, _, hfetch, hcod, _, _⟩ := apiSoilWeather_ok R lat lon hok
    exact ⟨st, weather, hfetch, hcod⟩
  refine ⟨?_, ?_, ?_, hnot200, h200⟩
  · intro hrej
    apply hnot200
    intro hok
    obtain ⟨st, weather, hfetch, _⟩ := h200 hok
    rw [hrej] at hfetch
    cases hfetch
  · intro st hbad
    apply hnot200
    intro hok
    obtain ⟨st', weather, hfetch, _⟩ := h200 hok
    rw [hbad] at hfetch
    cases hfetch
  · intro st weather hresp hcod
    apply hnot200
    intro hok
    obtain ⟨st', weather', hfetch, hcod'⟩ := h200 hok
    rw [hresp] at hfetch
    cases hfetch
    exact hcod hcod'

/-- C9 at concrete upstream results: a rejected fetch, an unparsable body, a
payload whose `cod` is the string `"404"`, and a payload whose `cod` is the
string `"200"` each give status 500 and no advisory field. -/
theorem C9_no_partial_advisory_witness :
    ((apiSoilWeather (demoRuntime FetchResult.rejected) (JsVal.str "28")
        (JsVal.str "77")).status = 500 ∧
      ∀ k ∈ advisoryFields,
        (apiSoilWeather (demoRuntime FetchResult.rejected) (JsVal.str "28")
          (JsVal.str "77")).body.hasOwn k = false) ∧
    ((apiSoilWeather (demoRuntime (FetchResult.response 200 none)) (JsVal.str "28")
        (JsVal.str "77")).status = 500 ∧
      ∀ k ∈ advisoryFields,
        (apiSoilWeather (demoRuntime (FetchResult.response 200 none)) (JsVal.str "28")
          (JsVal.str "77")).body.hasOwn k = false) ∧
    ((apiSoilWeather
        (demoRuntime (FetchResult.response 404 (some (JsVal.obj
          [("cod", JsVal.str "404"), ("message", JsVal.str "city not found")]))))
        (JsVal.str "28") (JsVal.str "77")).status = 500 ∧
      ∀ k ∈ advisoryFields,
        (apiSoilWeather
          (demoRuntime (FetchResult.response 404 (some (JsVal.obj
            [("cod", JsVal.str "404"), ("message", JsVal.str "city not found")]))))
          (JsVal.str "28") (JsVal.str "77")).body.hasOwn k = false) ∧
    ((apiSoilWeather
        (demoRuntime (FetchResult.response 200 (some (JsVal.obj
          [("cod", JsVal.str "200"), ("main", JsVal.obj [("temp", JsVal.num (JsNum.fin 27))])]))))
        (JsVal.str "28") (JsVal.str "77")).status = 500 ∧
      ∀ k ∈ advisoryFields,
        (apiSoilWeather
          (demoRuntime (FetchResult.response 200 (some (JsVal.obj
            [("cod", JsVal.str "200"),
             ("main", JsVal.obj [("temp", JsVal.num (JsNum.fin 27))])]))))
          (JsVal.str "28") (JsVal.str "77")).body.hasOwn k = false) :=
  ⟨(C9_no_partial_advisory (demoRuntime FetchResult.rejected) (JsVal.str "28") (JsVal.str "77")
      rfl rfl).1 rfl,
   (C9_no_partial_advisory (demoRuntime (FetchResult.response 200 none)) (JsVal.str "28")
      (JsVal.str "77") rfl rfl).2.1 200 rfl,
   (C9_no_partial_advisory _ (JsVal.str "28") (JsVal.str "77") rfl rfl).2.2.1 404 _ rfl
      (fun h => by cases h),
   (C9_no_partial_advisory _ (JsVal.str "28") (JsVal.str "77") rfl rfl).2.2.1 200 _ rfl
      (fun h => by cases h)⟩

/-! ### Validation -/

theorem truthy_of_missing (v : JsVal) (h : Missing v) : v.truthy = false := by
  rcases h with h | h <;> subst h <;> rfl

/-- C6: on each of the four operations a request in which a required input is
missing (`lat` or `lon` absent or empty; `soilType` absent or empty for
recommendations) is answered with status 400, and the handler's effect trace
is empty: no upstream fetch and no table lookup is performed. -/
theorem C6_missing_input_rejected_before_any_work (R : Runtime) (lat lon soilType : JsVal) :
    (Missing lat ∨ Missing lon →
      ((apiWeather R lat lon).status = 400 ∧ (apiWeather R lat lon).trace = []) ∧
      ((apiSoil R lat lon).status = 400 ∧ (apiSoil R lat lon).trace = []) ∧
      ((apiSoilWeather R lat lon).status = 400 ∧ (apiSoilWeather R lat lon).trace = [])) ∧
    (Missing soilType →
      (apiRecommendations R soilType).status = 400 ∧ (apiRecommendations R soilType).trace = []) := by
  constructor
  · intro h
    have hfalsy : (!lat.truthy || !lon.truthy) = true := by
      rcases h with h | h
      · simp [truthy_of_missing lat h]
      · simp [truthy_of_missing lon h]
    simp [apiWeather, apiSoil, apiSoilWeather, hfalsy]
  · intro h
    simp [apiRecommendations, truthy_of_missing soilType h]

/-- C6 at concrete requests: `lat` absent, `lon` empty, `soilType` absent and
`soilType` empty, against an upstream that would have answered. -/
theorem C6_missing_input_witness :
    (Missing JsVal.undefined ∧ Missing (JsVal.str "")) ∧
    ((apiWeather (demoRuntime (FetchResult.response 200 (some (demoPayload 27 none))))
        JsVal.undefined (JsVal.str "77")).status = 400 ∧
     (apiWeather (demoRuntime (FetchResult.response 200 (some (demoPayload 27 none))))
        JsVal.undefined (JsVal.str "77")).trace = []) ∧
    ((apiSoil (demoRuntime (FetchResult.response 200 (some (demoPayload 27 none))))
        (JsVal.str "28") (JsVal.str "")).status = 400 ∧
     (apiSoil (demoRuntime (FetchResult.response 200 (some (demoPayload 27 none))))
        (JsVal.str "28") (JsVal.str "")).trace = []) ∧
    ((apiSoilWeather (demoRuntime (FetchResult.response 200 (some (demoPayload 27 none))))
        (JsVal.str "28") (JsVal.str "")).status = 400 ∧
     (apiSoilWeather (demoRuntime (FetchResult.response 200 (some (demoPayload 27 none))))
        (JsVal.str "28") (JsVal.str "")).trace = []) ∧
    ((apiRecommendations (demoRuntime FetchResult.rejected) JsVal.undefined).status = 400 ∧
     (apiRecommendations (demoRuntime FetchResult.rejected) JsVal.undefined).trace = []) ∧
    ((apiRecommendations (demoRuntime FetchResult.rejected) (JsVal.str "")).status = 400 ∧
     (apiRecommendations (demoRuntime FetchResult.rejected) (JsVal.str "")).trace = []) :=
  ⟨⟨Or.inl rfl, Or.inr rfl⟩,
   ((C6_missing_input_rejected_before_any_work _ JsVal.undefined (JsVal.str "77")
      JsVal.undefined).1 (Or.inl (Or.inl rfl))).1,
   ((C6_missing_input_rejected_before_any_work _ (JsVal.str "28") (JsVal.str "")
      JsVal.undefined).1 (Or.inr (Or.inr rfl))).2.1,
   ((C6_missing_input_rejected_before_any_work _ (JsVal.str "28") (JsVal.str "")
      JsVal.undefined).1 (Or.inr (Or.inr rfl))).2.2,
   (C6_missing_input_rejected_before_any_work (demoRuntime FetchResult.rejected) JsVal.undefined
      JsVal.undefined JsVal.undefined).2 (Or.inl rfl),
   (C6_missing_input_rejected_before_any_work (demoRuntime FetchResult.rejected) JsVal.undefined
      JsVal.undefined (JsVal.str "")).2 (Or.inr rfl)⟩

/-- With non-empty `lat` and `lon`, the first effect of `/api/weather` is the
upstream fetch for the raw values. -/
theorem apiWeather_trace_head (R : Runtime) (lat lon : JsVal)
    (hlat : lat.truthy = true) (hlon : lon.truthy = true) :
    ∃ rest, (apiWeather R lat lon).trace = Event.fetch (weatherUrl R lat lon) :: rest := by
  unfold apiWeather
  simp only [hlat, hlon, Bool.not_true, Bool.or_self, Bool.false_eq_true, if_false]
  cases R.fetch (weatherUrl R lat lon) with
  | rejected => exact ⟨_, rfl⟩
  | response st json =>
    cases json with
    | none => exact ⟨_, rfl⟩
    | some data =>
      dsimp only
      split
      · exact ⟨_, rfl⟩
      · split <;> exact ⟨_, rfl⟩

/-- With non-empty `lat` and `lon`, the first effect of `/api/soil-weather` is
the upstream fetch for the raw values. -/
theorem apiSoilWeather_trace_head (R : Runtime) (lat lon : JsVal)
    (hlat : lat.truthy = true) (hlon : lon.truthy = true) :
    ∃ rest, (apiSoilWeather R lat lon).trace = Event.fetch (weatherUrl R lat lon) :: rest := by
  unfold apiSoilWeather
  simp only [hlat, hlon, Bool.not_true, Bool.or_self, Bool.false_eq_true, if_false]
  cases R.fetch (weatherUrl R lat lon) with
  | rejected => exact ⟨_, rfl⟩
  | response st json =>
    cases json with
    | none => exact ⟨_, rfl⟩
    | some weather =>
      dsimp only
      split
      · exact ⟨_, rfl⟩
      · split
        · exact ⟨_, rfl⟩
        · split <;> exact ⟨_, rfl⟩

/-- Every declared zone lies within the valid coordinate range. -/
theorem valid_of_contains (z : SoilZone) (hz : z ∈ soilZones) (latitude longitude : JsNum)
    (hc : z.Contains latitude longitude) : ValidCoordinate latitude longitude := by
  simp only [soilZones, List.mem_cons, List.mem_singleton, List.not_mem_nil, or_false] at hz
  rcases hz with h | h | h <;> subst h <;> cases latitude <;> cases longitude <;>
    simp only [SoilZone.Contains, ValidCoordinate, JsNum.Le, and_false, false_and, and_self] at hc ⊢ <;>
    (obtain ⟨h1, h2, h3, h4⟩ := hc; refine ⟨?_, ?_, ?_, ?_⟩ <;> linarith)

/-- C7, as stated, fails: on `GET /api/soil` the request `lat=abc&lon=xyz`
(text that is not a number) and the request `lat=95&lon=200` (outside the
coordinate range) are answered with status 200 after the zone lookup, whatever
the runtime's parsing returns, and on `GET /api/weather` and
`GET /api/soil-weather` the same requests reach the upstream fetch. -/
theorem C7_counterexample :
    (¬ ∃ R : Runtime, (apiSoil R (JsVal.str "abc") (JsVal.str "xyz")).status = 400) ∧
    (¬ ∃ R : Runtime, (apiSoil R (JsVal.str "95") (JsVal.str "200")).status = 400) ∧
    (apiSoil (demoRuntime FetchResult.rejected) (JsVal.str "abc") (JsVal.str "xyz") =
      { status := 200,
        body := JsVal.obj
          [("region", JsVal.str "Generic Zone"), ("soilType", JsVal.str "Mixed"),
           ("phRange", JsVal.str "6.0 - 7.5"), ("organicCarbon", JsVal.str "Medium")],
        trace := [Event.zoneLookup] }) ∧
    (¬ ValidCoordinate (readDigits "95") (readDigits "200") ∧
      apiSoil (demoRuntime FetchResult.rejected) (JsVal.str "95") (JsVal.str "200") =
      { status := 200,
        body := JsVal.obj
          [("region", JsVal.str "Generic Zone"), ("soilType", JsVal.str "Mixed"),
           ("phRange", JsVal.str "6.0 - 7.5"), ("organicCarbon", JsVal.str "Medium")],
        trace := [Event.zoneLookup] }) ∧
    (¬ ∃ R : Runtime, (apiWeather R (JsVal.str "abc") (JsVal.str "xyz")).trace = []) ∧
    (¬ ∃ R : Runtime, (apiSoilWeather R (JsVal.str "abc") (JsVal.str "xyz")).trace = []) := by
  refine ⟨?_, ?_, by rfl, ⟨by decide, by rfl⟩, ?_, ?_⟩
  · rintro ⟨R, h⟩
    obtain ⟨z, hz⟩ := selectZone_soilZones_isSome (R.parseFloat (JsVal.str "abc"))
      (R.parseFloat (JsVal.str "xyz"))
    simp [apiSoil, JsVal.truthy, hz] at h
  · rintro ⟨R, h⟩
    obtain ⟨z, hz⟩ := selectZone_soilZones_isSome (R.parseFloat (JsVal.str "95"))
      (R.parseFloat (JsVal.str "200"))
    simp [apiSoil, JsVal.truthy, hz] at h
  · rintro ⟨R, h⟩
    obtain ⟨rest, hrest⟩ := apiWeather_trace_head R (JsVal.str "abc") (JsVal.str "xyz") rfl rfl
    rw [hrest] at h
    cases h
  · rintro ⟨R, h⟩
    obtain ⟨rest, hrest⟩ :=
      apiSoilWeather_trace_head R (JsVal.str "abc") (JsVal.str "xyz") rfl rfl
    rw [hrest] at h
    cases h

/-- C7, amended: for a request whose `lat` and `lon` are both present and
non-empty no check of format or range is made.  `GET /api/soil` answers with
status 200 and the zone selected for the parsed values, which is
`Generic Zone` whenever a parsed value is `NaN` or the coordinate lies outside
`[-90, 90] x [-180, 180]`; `GET /api/weather` and `GET /api/soil-weather`
perform the upstream fetch for the raw values as their first effect. -/
theorem C7_present_values_are_not_validated (R : Runtime) (lat lon : JsVal)
    (hlat : lat.truthy = true) (hlon : lon.truthy = true) :
    (∃ z, selectZone soilZones (R.parseFloat lat) (R.parseFloat lon) = some z ∧
      apiSoil R lat lon =
        { status := 200, body := soilBody z, trace := [Event.zoneLookup] }) ∧
    (¬ ValidCoordinate (R.parseFloat lat) (R.parseFloat lon) →
      apiSoil R lat lon =
        { status := 200,
          body := JsVal.obj
            [("region", JsVal.str "Generic Zone"), ("soilType", JsVal.str "Mixed"),
             ("phRange", JsVal.str "6.0 - 7.5"), ("organicCarbon", JsVal.str "Medium")],
          trace := [Event.zoneLookup] }) ∧
    (∃ rest, (apiWeather R lat lon).trace = Event.fetch (weatherUrl R lat lon) :: rest) ∧
    (∃ rest, (apiSoilWeather R lat lon).trace = Event.fetch (weatherUrl R lat lon) :: rest) := by
  refine ⟨?_, ?_, apiWeather_trace_head R lat lon hlat hlon,
    apiSoilWeather_trace_head R lat lon hlat hlon⟩
  · obtain ⟨z, hz⟩ := selectZone_soilZones_isSome (R.parseFloat lat) (R.parseFloat lon)
    exact ⟨z, hz, by simp [apiSoil, hlat, hlon, hz]⟩
  · intro hinvalid
    have hnone : soilZones.find? (zoneMatches (R.parseFloat lat) (R.parseFloat lon)) = none :=
      (find_zone_eq_none_iff _ _ _).mpr
        (fun z hz hc => hinvalid (valid_of_contains z hz _ _ hc))
    have hz : selectZone soilZones (R.parseFloat lat) (R.parseFloat lon) = soilZones[2]? := by
      unfold selectZone
      rw [hnone]
      rfl
    unfold apiSoil
    simp only [hlat, hlon, Bool.not_true, Bool.or_self, Bool.false_eq_true, if_false, hz]
    rfl

/-- C7, amended, at the request `lat=abc&lon=xyz`: the soil route answers 200
with `Generic Zone`, and both weather routes call the upstream first. -/
theorem C7_present_values_witness :
    ((JsVal.str "abc").truthy = true ∧ (JsVal.str "xyz").truthy = true) ∧
    ¬ ValidCoordinate ((demoRuntime FetchResult.rejected).parseFloat (JsVal.str "abc"))
        ((demoRuntime FetchResult.rejected).parseFloat (JsVal.str "xyz")) ∧
    apiSoil (demoRuntime FetchResult.rejected) (JsVal.str "abc") (JsVal.str "xyz") =
      { status := 200,
        body := JsVal.obj
          [("region", JsVal.str "Generic Zone"), ("soilType", JsVal.str "Mixed"),
           ("phRange", JsVal.str "6.0 - 7.5"), ("organicCarbon", JsVal.str "Medium")],
        trace := [Event.zoneLookup] } ∧
    (∃ rest, (apiWeather (demoRuntime FetchResult.rejected) (JsVal.str "abc")
        (JsVal.str "xyz")).trace =
      Event.fetch (weatherUrl (demoRuntime FetchResult.rejected) (JsVal.str "abc")
        (JsVal.str "xyz")) :: rest) ∧
    (∃ rest, (apiSoilWeather (demoRuntime FetchResult.rejected) (JsVal.str "abc")
        (JsVal.str "xyz")).trace =
      Event.fetch (weatherUrl (demoRuntime FetchResult.rejected) (JsVal.str "abc")
        (JsVal.str "xyz")) :: rest) :=
  ⟨⟨rfl, rfl⟩, by decide,
   (C7_present_values_are_not_validated (demoRuntime FetchResult.rejected) (JsVal.str "abc")
      (JsVal.str "xyz") rfl rfl).2.1 (by decide),
   (C7_present_values_are_not_validated (demoRuntime FetchResult.rejected) (JsVal.str "abc")
      (JsVal.str "xyz") rfl rfl).2.2.1,
   (C7_present_values_are_not_validated (demoRuntime FetchResult.rejected) (JsVal.str "abc")
      (JsVal.str "xyz") rfl rfl).2.2.2⟩

/-! ### Upstream errors on `/api/weather` -/

/-- C8: in `GET /api/weather`, for a request with non-empty `lat` and `lon`
whose upstream response has a non-success status `s` and a body that parses to
`b`, the answer has exactly status `s` and the body
`{ message: "Weather API error", details: b }`, which has none of the weather
snapshot fields. -/
theorem C8_upstream_error_is_passed_through (R : Runtime) (lat lon : JsVal) (s : Nat)
    (b : JsVal) (hlat : lat.truthy = true) (hlon : lon.truthy = true)
    (hfetch : R.fetch (weatherUrl R lat lon) = FetchResult.response s (some b))
    (hbad : FetchResult.okStatus s = false) :
    (apiWeather R lat lon).status = s ∧
    (apiWeather R lat lon).body =
      JsVal.obj [("message", JsVal.str "Weather API error"), ("details", b)] ∧
    (apiWeather R lat lon).body.optGet "details" = b ∧
    ∀ k ∈ snapshotFields, (apiWeather R lat lon).body.hasOwn k = false := by
  have hout : apiWeather R lat lon =
      { status := s,
        body := JsVal.obj [("message", JsVal.str "Weather API error"), ("details", b)],
        trace := [Event.fetch (weatherUrl R lat lon), Event.log "Weather API status:",
          Event.log "Weather API raw data:"] } := by
    simp [apiWeather, hlat, hlon, hfetch, hbad]
  rw [hout]
  refine ⟨rfl, rfl, rfl, ?_⟩
  intro k hk
  simp only [snapshotFields, List.mem_cons, List.mem_singleton, List.not_mem_nil, or_false] at hk
  rcases hk with h | h | h | h | h | h | h <;> subst h <;> rfl

/-- C8 at a concrete upstream answer: status 404 with the provider's error
object is passed through. -/
theorem C8_upstream_error_witness :
    FetchResult.okStatus 404 = false ∧
    (apiWeather
        (demoRuntime (FetchResult.response 404 (some (JsVal.obj
          [("cod", JsVal.str "404"), ("message", JsVal.str "city not found")]))))
        (JsVal.str "28") (JsVal.str "77")).status = 404 ∧
    (apiWeather
        (demoRuntime (FetchResult.response 404 (some (JsVal.obj
          [("cod", JsVal.str "404"), ("message", JsVal.str "city not found")]))))
        (JsVal.str "28") (JsVal.str "77")).body =
      JsVal.obj
        [("message", JsVal.str "Weather API error"),
         ("details", JsVal.obj
            [("cod", JsVal.str "404"), ("message", JsVal.str "city not found")])] :=
  ⟨rfl,
   (C8_upstream_error_is_passed_through _ (JsVal.str "28") (JsVal.str "77") 404 _ rfl rfl rfl
      rfl).1,
   (C8_upstream_error_is_passed_through _ (JsVal.str "28") (JsVal.str "77") 404 _ rfl rfl rfl
      rfl).2.1⟩

end AgroFarm
